import Mathlib

/-!
Verification development for the MBCT snapshot-to-label pipeline
(trading-core).

Shallow embedding conventions:
* Rust f64 values are modelled as rationals.  The transcendental
  operations that the source applies to f64 values (natural logarithm,
  ln_1p, square root) are passed in as explicit function parameters;
  every theorem below is independent of their concrete values, which
  matches the fact that the f64 library functions are themselves pure.
* Decimal strings from the wire (the px and sz fields of an L2 level)
  are modelled by their parse result: an optional rational, where
  entry none models a parse failure; the source reads them with
  parse().unwrap_or(0.0), modelled by Option.getD with default 0.
* Wall-clock reads (SystemTime::now, Instant::now, chrono timestamps)
  are modelled by an explicit time argument threaded into the
  operation that performs the clock read.
* Per-symbol maps (HashMap or DashMap keyed by symbol) are modelled by
  the single entry the operation under study touches: every modelled
  operation reads and writes the entry of exactly one symbol.
-/

namespace MBCT

/-- One price level of an order book, after decimal parsing.
Embeds the px and sz string fields of trading-core L2 levels; a value
none models a string on which parse::<f64>() fails. -/
structure L2Level where
  px : Option ℚ
  sz : Option ℚ
deriving DecidableEq

/-- An order-book snapshot: bid levels and ask levels.
In researcher code the two sides are levels[0] and levels[1]; in trader
code they are levels.bids and levels.asks.  The embedding uses one
structure for both. -/
structure L2Snapshot where
  bids : List L2Level
  asks : List L2Level
deriving DecidableEq

/-- Embeds PhysicsState from trader/modules/physicist.rs and
researcher/modules/physicist.rs (identical field lists). -/
structure PhysicsState where
  price : ℚ
  spread : ℚ
  entropy : ℚ
  pressure : ℚ
  temperature : ℚ
  nrg : ℚ
  total_volume : ℚ
  bid_volume : ℚ
  ask_volume : ℚ
  timestamp : ℤ
deriving DecidableEq

namespace Physicist

/-- Embeds Physicist::calculate_entropy (identical in the researcher and
trader variants): Shannon entropy of the volume distribution over all
levels of both sides.  The parameter qln models f64 ln. -/
def calculate_entropy (qln : ℚ → ℚ) (s : L2Snapshot) : ℚ :=
  let vols := (s.bids ++ s.asks).map (fun l => l.sz.getD 0)
  let total_vol := vols.sum
  if total_vol = 0 then 0
  else (((vols.map (fun v => v / total_vol)).filter (fun p => 0 < p)).map
    (fun p => -p * qln p)).sum

/-- Embeds Physicist::calculate_pressure (identical in both variants). -/
def calculate_pressure (bid_vol ask_vol : ℚ) : ℚ :=
  if bid_vol + ask_vol = 0 then 0
  else (bid_vol - ask_vol) / (bid_vol + ask_vol) * 100

/-- Embeds Physicist::calculate_volumes of the researcher variant:
sums the sizes of the first 10 levels of each side. -/
def calculate_volumes_researcher (s : L2Snapshot) : ℚ × ℚ :=
  (((s.bids.take 10).map (fun l => l.sz.getD 0)).sum,
   ((s.asks.take 10).map (fun l => l.sz.getD 0)).sum)

/-- Embeds Physicist::calculate_volumes of the trader variant:
sums the sizes of all levels of each side. -/
def calculate_volumes_trader (s : L2Snapshot) : ℚ × ℚ :=
  ((s.bids.map (fun l => l.sz.getD 0)).sum,
   (s.asks.map (fun l => l.sz.getD 0)).sum)

/-- Embeds Physicist::process_snapshot of
researcher/modules/physicist.rs.  The clock read
SystemTime::now (for the timestamp field) is the explicit argument
now; qln and qln1p model f64 ln and ln_1p, qpi models the f64
constant pi. -/
def process_snapshot_researcher (qln qln1p : ℚ → ℚ) (qpi : ℚ)
    (s : L2Snapshot) (now : ℤ) : PhysicsState :=
  let bv := (calculate_volumes_researcher s).1
  let av := (calculate_volumes_researcher s).2
  let entropy := calculate_entropy qln s
  let pressure := calculate_pressure bv av
  let mid_price :=
    match s.bids, s.asks with
    | b :: _, a :: _ => (b.px.getD 0 + a.px.getD 0) / 2
    | _, _ => 0
  let spread :=
    if 0 < mid_price then
      match s.bids, s.asks with
      | b :: _, a :: _ => (a.px.getD 0 - b.px.getD 0) / mid_price
      | _, _ => 0        -- unreachable: mid_price > 0 forces both sides non-empty
    else 0
  let nrg := qpi * entropy * qln1p |pressure|
  { price := mid_price
    spread := spread
    entropy := entropy
    pressure := pressure
    temperature := mid_price
    nrg := nrg
    total_volume := bv + av
    bid_volume := bv
    ask_volume := av
    timestamp := now }

/-- Embeds Physicist::process_snapshot of trader/modules/physicist.rs:
absolute spread, nrg as the plain product, volumes over all levels. -/
def process_snapshot_trader (qln : ℚ → ℚ) (s : L2Snapshot) (now : ℤ) :
    PhysicsState :=
  let bv := (calculate_volumes_trader s).1
  let av := (calculate_volumes_trader s).2
  let entropy := calculate_entropy qln s
  let pressure := calculate_pressure bv av
  let mid_price :=
    match s.bids, s.asks with
    | b :: _, a :: _ => (b.px.getD 0 + a.px.getD 0) / 2
    | _, _ => 0
  let spread :=
    match s.bids, s.asks with
    | b :: _, a :: _ => a.px.getD 0 - b.px.getD 0
    | _, _ => 0
  let nrg := |pressure| * entropy
  { price := mid_price
    spread := spread
    entropy := entropy
    pressure := pressure
    temperature := mid_price
    nrg := nrg
    total_volume := bv + av
    bid_volume := bv
    ask_volume := av
    timestamp := now }

end Physicist

/-- Embeds MarketRegime of the regime modules. -/
inductive MarketRegime where
  | Compression
  | Oscillatory
  | Ballistic
deriving DecidableEq

/-- Embeds RegimeState of the regime modules. -/
structure RegimeState where
  regime : MarketRegime
  symmetry_score : ℚ
  slope : ℚ
  reversion_speed : ℚ
  confidence : ℚ
deriving DecidableEq

namespace RegimeClassifier

/-- Embeds RegimeClassifier::calculate_symmetry (identical in the
researcher and trader variants).  Rust data.windows(2) is the list of
adjacent pairs, modelled by zipping the list with its tail. -/
def calculate_symmetry (data : List ℚ) : ℚ :=
  let pairs := data.zip data.tail
  let ups := (pairs.map (fun w => if 0 < w.2 - w.1 then w.2 - w.1 else 0)).sum
  let downs := (pairs.map (fun w => if 0 < w.2 - w.1 then 0 else |w.2 - w.1|)).sum
  let total := ups + downs
  if total = 0 then 1 / 2 else ups / total

/-- Embeds RegimeClassifier::calculate_slope (identical in both
variants); data.enum models the Rust enumerate over indices. -/
def calculate_slope (data : List ℚ) : ℚ :=
  let n : ℚ := data.length
  let x_mean := (n - 1) / 2
  let y_mean := data.sum / n
  let num := (data.enum.map (fun p => ((p.1 : ℚ) - x_mean) * (p.2 - y_mean))).sum
  let den := (data.enum.map (fun p => ((p.1 : ℚ) - x_mean) ^ 2)).sum
  if den = 0 then 0 else num / den

/-- The regime decision applied to the symmetry value inside
RegimeClassifier::classify (identical in both variants); factored out
of classify verbatim. -/
def regimeDecision (symmetry : ℚ) : MarketRegime :=
  if 8 / 10 < symmetry ∨ symmetry < 2 / 10 then MarketRegime.Ballistic
  else if 4 / 10 < symmetry ∧ symmetry < 6 / 10 then MarketRegime.Compression
  else MarketRegime.Oscillatory

/-- Embeds RegimeClassifier::classify (identical in the researcher and
trader variants).  The VecDeque window is modelled as a list in queue
order. -/
def classify (window_size : ℕ) (history : List PhysicsState) : RegimeState :=
  if history.length < window_size then
    { regime := MarketRegime.Compression
      symmetry_score := 1 / 2
      slope := 0
      reversion_speed := 0
      confidence := 0 }
  else
    let prices := history.map PhysicsState.price
    let slope := calculate_slope prices
    let symmetry := calculate_symmetry prices
    let reversion :=
      if 5 < history.length then
        symmetry - calculate_symmetry (prices.take (prices.length - 5))
      else 0
    { regime := regimeDecision symmetry
      symmetry_score := symmetry
      slope := slope
      reversion_speed := reversion
      confidence := 1 - 1 / (history.length : ℚ) }

/-- Common tail of RegimeClassifier::calculate_z_score once the field
values have been selected: sample mean, sample standard deviation with
denominator n - 1, guard against n < 2 and against a standard
deviation below 1e-9.  The parameter qsqrt models f64 sqrt. -/
def zscoreCore (qsqrt : ℚ → ℚ) (current_val : ℚ) (values : List ℚ) : ℚ :=
  let n : ℚ := values.length
  if n < 2 then 0
  else
    let mean := values.sum / n
    let variance := (values.map (fun v => (v - mean) ^ 2)).sum / (n - 1)
    let std_dev := qsqrt variance
    if std_dev < 1 / 1000000000 then 0
    else (current_val - mean) / std_dev

/-- Embeds RegimeClassifier::calculate_z_score (identical logic in the
researcher and trader variants; the threshold 0.000000001 of the
researcher equals the 1e-9 of the trader).  The Rust match on the
field string is an if chain on string equality. -/
def calculate_z_score (qsqrt : ℚ → ℚ) (current_val : ℚ)
    (history : List PhysicsState) (field : String) : ℚ :=
  if field = "entropy" then
    zscoreCore qsqrt current_val (history.map PhysicsState.entropy)
  else if field = "pressure" then
    zscoreCore qsqrt current_val (history.map PhysicsState.pressure)
  else if field = "nrg" then
    zscoreCore qsqrt current_val (history.map PhysicsState.nrg)
  else 0

end RegimeClassifier

namespace Chronos

/-- Embeds MBCTFullRecord of researcher/modules/chronos.rs.  The
timestamp field (SystemTime millis) and the created_at field (Instant)
are both captured at registration time from the same clock; the
embedding keeps one logical clock in whole seconds, so a single t0
field models both.  Durations are in seconds, as produced by
as_secs(). -/
structure MBCTFullRecord where
  t0 : ℕ
  symbol : String
  physics : PhysicsState
  regime : RegimeState
  ret_3s : Option ℚ
  ret_8s : Option ℚ
  ret_21s : Option ℚ
  ret_55s : Option ℚ
  ret_89s : Option ℚ
  is_complete : Bool
deriving DecidableEq

/-- Embeds Chronos::calculate_return of researcher/modules/chronos.rs:
zero sentinel for a non-positive entry price, otherwise the price
change relative to entry multiplied by 100. -/
def calculate_return (entry_price current_price : ℚ) : ℚ :=
  if entry_price ≤ 0 then 0
  else (current_price - entry_price) / entry_price * 100

/-- The record built by Chronos::register_observation at clock time
now: all returns unset, not complete. -/
def newRecord (symbol : String) (physics : PhysicsState)
    (regime : RegimeState) (now : ℕ) : MBCTFullRecord :=
  { t0 := now
    symbol := symbol
    physics := physics
    regime := regime
    ret_3s := none
    ret_8s := none
    ret_21s := none
    ret_55s := none
    ret_89s := none
    is_complete := false }

/-- Embeds Chronos::register_observation of
researcher/modules/chronos.rs, restricted to the pending
vector of one symbol: pushes a fresh record to the back.  No capacity check is
performed by the source. -/
def register_observation (symbol : String) (physics : PhysicsState)
    (regime : RegimeState) (now : ℕ) (pending : List MBCTFullRecord) :
    List MBCTFullRecord :=
  pending ++ [newRecord symbol physics regime now]

/-- The per-record body of the update loop of Chronos::update_and_flush
(researcher variant).  elapsed is now - created_at in seconds; the
fibonacci_windows vector [3, 8, 21, 55, 89] of the source is inlined
at its five use sites.  Each horizon whose window has elapsed and
whose return is still unset receives calculate_return; the 89 s
horizon additionally sets is_complete. -/
def updateRecord (now : ℕ) (current_price : ℚ) (r : MBCTFullRecord) :
    MBCTFullRecord :=
  let elapsed := now - r.t0
  let entry_p := r.physics.price
  let r1 := if r.ret_3s = none ∧ 3 ≤ elapsed then
    { r with ret_3s := some (calculate_return entry_p current_price) } else r
  let r2 := if r1.ret_8s = none ∧ 8 ≤ elapsed then
    { r1 with ret_8s := some (calculate_return entry_p current_price) } else r1
  let r3 := if r2.ret_21s = none ∧ 21 ≤ elapsed then
    { r2 with ret_21s := some (calculate_return entry_p current_price) } else r2
  let r4 := if r3.ret_55s = none ∧ 55 ≤ elapsed then
    { r3 with ret_55s := some (calculate_return entry_p current_price) } else r3
  if r4.ret_89s = none ∧ 89 ≤ elapsed then
    { r4 with ret_89s := some (calculate_return entry_p current_price)
              is_complete := true }
  else r4

/-- Embeds Chronos::update_and_flush of researcher/modules/chronos.rs,
restricted to the pending vector of one symbol.  Every record is updated in
place; then the removal loop extracts the complete records in queue
order and keeps the rest in queue order, which is exactly a partition
by is_complete.  Result: (remaining pending queue, completed records
in emission order). -/
def update_and_flush (now : ℕ) (current_price : ℚ)
    (records : List MBCTFullRecord) :
    List MBCTFullRecord × List MBCTFullRecord :=
  let updated := records.map (updateRecord now current_price)
  (updated.filter (fun r => r.is_complete = false),
   updated.filter (fun r => r.is_complete = true))

end Chronos

namespace Trader

/-- Embeds the calc_ret closure of Chronos::update_and_flush in
trader/modules/chronos.rs: zero sentinel for a non-positive entry
price, otherwise the relative price change multiplied by 100. -/
def calc_ret (p_s p_n : ℚ) : ℚ :=
  if p_s ≤ 0 then 0 else (p_n - p_s) / p_s * 100

end Trader

namespace Engine

/-- Embeds ValidationRecord of research_engine.rs.  Only the fields
read or written by the modelled operations are kept; the remaining
fields (spread_at_t0, entropy, pressure, temperature, volume_spread,
total_volume, bid_volume, ask_volume, symmetry_score, decay_slope,
z_score, regime, regime_consistency, liquidity_score,
processing_time_us, queue_time_us, created_at) are copied through
unchanged by every modelled operation and are omitted. -/
structure ValidationRecord where
  timestamp : ℤ
  symbol : String
  price_at_t0 : ℚ
  movement_energy : ℚ
  confidence : ℚ
  return_5s : Option ℚ
  return_10s : Option ℚ
  return_30s : Option ℚ
  return_60s : Option ℚ
  is_complete : Bool
deriving DecidableEq

/-- Embeds ValidationRecord::calculate_return of research_engine.rs:
the fractional (unitless) forward return, defined only when the entry
price and the future price are both positive. -/
def ValidationRecord.calculate_return (r : ValidationRecord)
    (future_price : ℚ) : Option ℚ :=
  if 0 < r.price_at_t0 ∧ 0 < future_price then
    some ((future_price - r.price_at_t0) / r.price_at_t0)
  else none

/-- Embeds ThermodynamicPhysicist::queue_validation_record of
research_engine.rs, restricted to the entry of one symbol in
validation_queue: push to the back, then if the length exceeds 1000
remove the element at index 0 (the head).  The removed record is not
used further by the source. -/
def queue_validation_record (records : List ValidationRecord)
    (record : ValidationRecord) : List ValidationRecord :=
  let pushed := records ++ [record]
  if 1000 < pushed.length then pushed.tail else pushed

/-- The per-record body of the update loop of
ThermodynamicPhysicist::update_pending_records: time_diff is
current_timestamp - record.timestamp (i64 seconds); each horizon whose
window has elapsed and whose return is still unset receives
calculate_return, and reaching the 60 s horizon sets is_complete
unconditionally, even when calculate_return yields none. -/
def updateVRecord (current_timestamp : ℤ) (current_price : ℚ)
    (r : ValidationRecord) : ValidationRecord :=
  let time_diff := current_timestamp - r.timestamp
  let r1 := if 5 ≤ time_diff ∧ r.return_5s = none then
    { r with return_5s := r.calculate_return current_price } else r
  let r2 := if 10 ≤ time_diff ∧ r1.return_10s = none then
    { r1 with return_10s := r1.calculate_return current_price } else r1
  let r3 := if 30 ≤ time_diff ∧ r2.return_30s = none then
    { r2 with return_30s := r2.calculate_return current_price } else r2
  if 60 ≤ time_diff ∧ r3.return_60s = none then
    { r3 with return_60s := r3.calculate_return current_price
              is_complete := true }
  else r3

/-- The retirement trigger of update_pending_records: a record enters
to_remove exactly when the update loop took its 60 s branch, i.e. when
the 60 s window has elapsed and return_60s was still unset. -/
def retires (current_timestamp : ℤ) (r : ValidationRecord) : Prop :=
  60 ≤ current_timestamp - r.timestamp ∧ r.return_60s = none

instance (now : ℤ) (r : ValidationRecord) : Decidable (retires now r) := by
  unfold retires; infer_instance

/-- Embeds the queue effect of
ThermodynamicPhysicist::update_pending_records of research_engine.rs,
restricted to one symbol: all records are updated in place; then the
collected to_remove indices are traversed in reverse, removing each
retired record and handing its CSV line to the writer task in that
reverse order.  Result: (remaining queue in queue order, records
flushed to the sink in the order their writes are dispatched, i.e.
descending queue position). -/
def update_pending_records (now : ℤ) (current_price : ℚ)
    (records : List ValidationRecord) :
    List ValidationRecord × List ValidationRecord :=
  ((records.filter (fun r => ¬ retires now r)).map (updateVRecord now current_price),
   ((records.filter (fun r => retires now r)).map (updateVRecord now current_price)).reverse)

/-- Embeds CorrelationStats of research_engine.rs.  The last_updated
Instant is not modelled (no claim reads it). -/
structure CorrelationStats where
  nrg_5s_correlation : ℚ
  nrg_10s_correlation : ℚ
  nrg_5s_samples : ℕ
  sym_oscillatory_precision : ℚ
deriving DecidableEq

/-- Embeds ThermodynamicPhysicist::calculate_pearson_correlation of
research_engine.rs.  qsqrt models f64 sqrt.  When the denominator is
not larger than 1e-9 in absolute value the function returns
correlation 0 together with the group size. -/
def calculate_pearson_correlation (qsqrt : ℚ → ℚ) (x y : List ℚ) :
    ℚ × ℕ :=
  if x.length ≠ y.length ∨ x.length < 2 then (0, 0)
  else
    let n : ℚ := x.length
    let sum_x := x.sum
    let sum_y := y.sum
    let sum_xy := ((x.zip y).map (fun p => p.1 * p.2)).sum
    let sum_x2 := (x.map (fun v => v * v)).sum
    let sum_y2 := (y.map (fun v => v * v)).sum
    let numerator := n * sum_xy - sum_x * sum_y
    let denominator := qsqrt ((n * sum_x2 - sum_x * sum_x) * (n * sum_y2 - sum_y * sum_y))
    if 1 / 1000000000 < |denominator| then (numerator / denominator, x.length)
    else (0, x.length)

/-- Embeds the 5 s-horizon branch of the correlation update inside
update_pending_records: when the 5 s group is non-empty, the EWMA is
always assigned alpha * correlation + (1 - alpha) * old with
alpha = 0.1, and the sample counter grows by the group size returned
by calculate_pearson_correlation. -/
def updateStats5s (qsqrt : ℚ → ℚ) (stats : CorrelationStats)
    (nrg_values_5s returns_5s : List ℚ) : CorrelationStats :=
  if nrg_values_5s = [] then stats
  else
    let c := calculate_pearson_correlation qsqrt nrg_values_5s returns_5s
    { stats with
        nrg_5s_correlation := 1 / 10 * c.1 + (1 - 1 / 10) * stats.nrg_5s_correlation
        nrg_5s_samples := stats.nrg_5s_samples + c.2 }

/-- The two operations of the engine that touch the validation queue
of one symbol, at the granularity the claims quantify over. -/
inductive EngineOp where
  | enqueue (r : ValidationRecord)
  | onPrice (now : ℤ) (price : ℚ)

/-- One step of the engine on the queue of one symbol.  The second
component is the list of records the step flushes to the CSV sink:
queue_validation_record writes nothing to the sink (the record evicted
at the cap is dropped on the floor by the source), while
update_pending_records flushes every retired record. -/
def engineStep (queue : List ValidationRecord) (op : EngineOp) :
    List ValidationRecord × List ValidationRecord :=
  match op with
  | EngineOp.enqueue r => (queue_validation_record queue r, [])
  | EngineOp.onPrice now price => update_pending_records now price queue

end Engine

/-- Modelled from the spec: the fractional (unitless) forward return
(price - t0_price) / t0_price that section 4.4 and the return-units
decision of section 9 prescribe; used as the comparison point for the
return formulas found in the source. -/
def specReturn (t0_price price : ℚ) : ℚ := (price - t0_price) / t0_price

/-- Concrete all-zero physics state used as input of witnesses and
counterexamples. -/
def zeroPhysics : PhysicsState :=
  { price := 0, spread := 0, entropy := 0, pressure := 0, temperature := 0,
    nrg := 0, total_volume := 0, bid_volume := 0, ask_volume := 0, timestamp := 0 }

/-- Concrete default regime state used as input of witnesses and
counterexamples. -/
def defaultRegime : RegimeState :=
  { regime := MarketRegime.Compression, symmetry_score := 1 / 2, slope := 0,
    reversion_speed := 0, confidence := 0 }

namespace Chronos

/-- n successive register_observation calls with the same arguments:
models an interval during which observations are queued and no record
completes.  Used to exercise the absence of a capacity check in the
researcher Chronos. -/
def registerN (n : ℕ) (symbol : String) (physics : PhysicsState)
    (regime : RegimeState) (now : ℕ) (pending : List MBCTFullRecord) :
    List MBCTFullRecord :=
  match n with
  | 0 => pending
  | Nat.succ m =>
      registerN m symbol physics regime now
        (register_observation symbol physics regime now pending)

/-- Concrete pending record whose entry price is zero (an inactive
observation in the sense of the spec), registered at time 0. -/
def zeroEntryRecord : MBCTFullRecord :=
  newRecord "AAA" zeroPhysics defaultRegime 0

/-- Concrete pending record with entry price 100, registered at
time 0. -/
def recA : MBCTFullRecord :=
  newRecord "AAA" { zeroPhysics with price := 100 } defaultRegime 0

/-- Concrete pending record with entry price 100, registered at
time 1. -/
def recB : MBCTFullRecord :=
  newRecord "AAA" { zeroPhysics with price := 100 } defaultRegime 1

end Chronos

namespace Engine

/-- All four horizon returns of a validation record unset. -/
def returnsNone (r : ValidationRecord) : Prop :=
  r.return_5s = none ∧ r.return_10s = none ∧ r.return_30s = none ∧
    r.return_60s = none

instance (r : ValidationRecord) : Decidable (returnsNone r) := by
  unfold returnsNone; infer_instance

/-- A sequence of price updates applied to one pending record: each
element (t, p) is one update_pending_records call seen by the record,
whose per-record effect is updateVRecord. -/
def applyUpdates (ops : List (ℤ × ℚ)) (r : ValidationRecord) :
    ValidationRecord :=
  ops.foldl (fun acc op => updateVRecord op.1 op.2 acc) r

/-- Concrete fresh validation record with entry price q and timestamp
t, as built by ValidationRecord::new. -/
def freshVRecord (t : ℤ) (q : ℚ) : ValidationRecord :=
  { timestamp := t, symbol := "AAA", price_at_t0 := q, movement_energy := 0,
    confidence := 0, return_5s := none, return_10s := none, return_30s := none,
    return_60s := none, is_complete := false }

/-- Concrete queue of length 1000 whose head is the record registered
at time 0 and whose tail holds 999 records registered at time 1. -/
def fullQueue : List ValidationRecord :=
  freshVRecord 0 100 :: List.replicate 999 (freshVRecord 1 100)

/-- Concrete correlation stats holding an EWMA correlation of 1. -/
def statsOne : CorrelationStats :=
  { nrg_5s_correlation := 1, nrg_10s_correlation := 0, nrg_5s_samples := 0,
    sym_oscillatory_precision := 0 }

/-- The queue reached from the empty per-symbol queue by a sequence of
engine operations. -/
def runQueue (ops : List EngineOp) : List ValidationRecord :=
  ops.foldl (fun acc op => (engineStep acc op).1) []

end Engine

/-! Helper lemmas: field projections of the two per-record update
bodies.  Each horizon branch touches only its own return field, so the
chained conditions reduce to conditions on the incoming record. -/

theorem Chronos.updateRecord_t0 (now : ℕ) (p : ℚ) (r : Chronos.MBCTFullRecord) :
    (Chronos.updateRecord now p r).t0 = r.t0 := by
  unfold Chronos.updateRecord
  dsimp only
  repeat' split
  all_goals rfl

theorem Chronos.updateRecord_physics (now : ℕ) (p : ℚ) (r : Chronos.MBCTFullRecord) :
    (Chronos.updateRecord now p r).physics = r.physics := by
  unfold Chronos.updateRecord
  dsimp only
  repeat' split
  all_goals rfl

theorem Chronos.updateRecord_complete (now : ℕ) (p : ℚ) (r : Chronos.MBCTFullRecord) :
    (Chronos.updateRecord now p r).is_complete
      = if r.ret_89s = none ∧ 89 ≤ now - r.t0 then true else r.is_complete := by
  unfold Chronos.updateRecord
  dsimp only
  repeat' split
  all_goals rfl

theorem Chronos.updateRecord_ret89 (now : ℕ) (p : ℚ) (r : Chronos.MBCTFullRecord) :
    (Chronos.updateRecord now p r).ret_89s
      = if r.ret_89s = none ∧ 89 ≤ now - r.t0 then
          some (Chronos.calculate_return r.physics.price p)
        else r.ret_89s := by
  unfold Chronos.updateRecord
  dsimp only
  repeat' split
  all_goals rfl

theorem Chronos.updateRecord_ret3 (now : ℕ) (p : ℚ) (r : Chronos.MBCTFullRecord) :
    (Chronos.updateRecord now p r).ret_3s
      = if r.ret_3s = none ∧ 3 ≤ now - r.t0 then
          some (Chronos.calculate_return r.physics.price p)
        else r.ret_3s := by
  unfold Chronos.updateRecord
  dsimp only
  repeat' split
  all_goals rfl

theorem Engine.updateVRecord_timestamp (now : ℤ) (p : ℚ) (r : Engine.ValidationRecord) :
    (Engine.updateVRecord now p r).timestamp = r.timestamp := by
  unfold Engine.updateVRecord
  dsimp only
  repeat' split
  all_goals rfl

theorem Engine.updateVRecord_price_at_t0 (now : ℤ) (p : ℚ) (r : Engine.ValidationRecord) :
    (Engine.updateVRecord now p r).price_at_t0 = r.price_at_t0 := by
  unfold Engine.updateVRecord
  dsimp only
  repeat' split
  all_goals rfl

theorem Engine.updateVRecord_complete (now : ℤ) (p : ℚ) (r : Engine.ValidationRecord) :
    (Engine.updateVRecord now p r).is_complete
      = if 60 ≤ now - r.timestamp ∧ r.return_60s = none then true
        else r.is_complete := by
  unfold Engine.updateVRecord
  dsimp only
  repeat' split
  all_goals rfl

theorem Engine.updateVRecord_ret60 (now : ℤ) (p : ℚ) (r : Engine.ValidationRecord) :
    (Engine.updateVRecord now p r).return_60s
      = if 60 ≤ now - r.timestamp ∧ r.return_60s = none then
          r.calculate_return p
        else r.return_60s := by
  unfold Engine.updateVRecord
  dsimp only
  repeat' split
  all_goals rfl

theorem Engine.calculate_return_of_nonpos (r : Engine.ValidationRecord)
    (hp : r.price_at_t0 ≤ 0) (p : ℚ) : r.calculate_return p = none := by
  unfold Engine.ValidationRecord.calculate_return
  rw [if_neg]
  intro h
  exact absurd h.1 (not_lt.mpr hp)

/-- C1, counterexample: at entry price 100 and update price 101 the
researcher Chronos stores 1 (one percent expressed times 100), while the
fractional return of the claim is 1/100; so the stored value is not the
fractional quantity. -/
theorem return_units_cex :
    Chronos.calculate_return 100 101 = 1
    ∧ specReturn 100 101 = 1 / 100
    ∧ Chronos.calculate_return 100 101 ≠ specReturn 100 101 := by
  refine ⟨by norm_num [Chronos.calculate_return],
    by norm_num [specReturn], by norm_num [Chronos.calculate_return, specReturn]⟩

/-- C1, amended: the ValidationRecord of the research engine stores the
fractional (unitless) return, while the researcher Chronos and the
trader Chronos store that quantity multiplied by 100. -/
theorem return_units_amended (r : Engine.ValidationRecord) (future_price : ℚ)
    (h1 : 0 < r.price_at_t0) (h2 : 0 < future_price) (entry p : ℚ)
    (he : 0 < entry) :
    r.calculate_return future_price = some (specReturn r.price_at_t0 future_price)
    ∧ Chronos.calculate_return entry p = 100 * specReturn entry p
    ∧ Trader.calc_ret entry p = 100 * specReturn entry p := by
  refine ⟨?_, ?_, ?_⟩
  · unfold Engine.ValidationRecord.calculate_return specReturn
    rw [if_pos ⟨h1, h2⟩]
  · unfold Chronos.calculate_return specReturn
    rw [if_neg (not_le.mpr he)]
    ring
  · unfold Trader.calc_ret specReturn
    rw [if_neg (not_le.mpr he)]
    ring

/-- C1, witness for the amended theorem at entry price 100 and future
price 101. -/
theorem return_units_amended_witness :
    (Engine.freshVRecord 0 100).calculate_return 101
        = some (specReturn (Engine.freshVRecord 0 100).price_at_t0 101)
    ∧ Chronos.calculate_return 100 101 = 100 * specReturn 100 101
    ∧ Trader.calc_ret 100 101 = 100 * specReturn 100 101 :=
  return_units_amended (Engine.freshVRecord 0 100) 101 (by norm_num [Engine.freshVRecord])
    (by norm_num) 100 101 (by norm_num)

/-- C8: for a window of at least the configured minimum size, classify
applies the regime decision to the symmetry of the price series, and
that decision is total and disjoint: symmetry above 8/10 or below 2/10
gives Ballistic, symmetry strictly between 4/10 and 6/10 gives
Compression, and everything else, including the boundary values 2/10,
4/10, 6/10 and 8/10, gives Oscillatory. -/
theorem regime_partition (window_size : ℕ) (history : List PhysicsState)
    (hlen : window_size ≤ history.length) :
    (RegimeClassifier.classify window_size history).regime
      = RegimeClassifier.regimeDecision
          (RegimeClassifier.calculate_symmetry (history.map PhysicsState.price))
    ∧ (∀ s : ℚ, 8 / 10 < s ∨ s < 2 / 10 →
        RegimeClassifier.regimeDecision s = MarketRegime.Ballistic)
    ∧ (∀ s : ℚ, 4 / 10 < s ∧ s < 6 / 10 →
        RegimeClassifier.regimeDecision s = MarketRegime.Compression)
    ∧ (∀ s : ℚ, (2 / 10 ≤ s ∧ s ≤ 4 / 10) ∨ (6 / 10 ≤ s ∧ s ≤ 8 / 10) →
        RegimeClassifier.regimeDecision s = MarketRegime.Oscillatory) := by
  refine ⟨?_, ?_, ?_, ?_⟩
  · unfold RegimeClassifier.classify
    rw [if_neg (by omega)]
  · intro s h
    unfold RegimeClassifier.regimeDecision
    rw [if_pos h]
  · intro s h
    unfold RegimeClassifier.regimeDecision
    rw [if_neg (by push_neg; constructor <;> linarith [h.1, h.2]), if_pos h]
  · intro s h
    unfold RegimeClassifier.regimeDecision
    rcases h with ⟨h1, h2⟩ | ⟨h1, h2⟩ <;>
      rw [if_neg (by push_neg; constructor <;> linarith),
        if_neg (by rintro ⟨c1, c2⟩; linarith)]

/-- C8, witness at window size 1 and a one-element window (symmetry of
a single price is 1/2). -/
theorem regime_partition_witness :
    (RegimeClassifier.classify 1 [zeroPhysics]).regime
      = RegimeClassifier.regimeDecision
          (RegimeClassifier.calculate_symmetry ([zeroPhysics].map PhysicsState.price))
    ∧ (∀ s : ℚ, 8 / 10 < s ∨ s < 2 / 10 →
        RegimeClassifier.regimeDecision s = MarketRegime.Ballistic)
    ∧ (∀ s : ℚ, 4 / 10 < s ∧ s < 6 / 10 →
        RegimeClassifier.regimeDecision s = MarketRegime.Compression)
    ∧ (∀ s : ℚ, (2 / 10 ≤ s ∧ s ≤ 4 / 10) ∨ (6 / 10 ≤ s ∧ s ≤ 8 / 10) →
        RegimeClassifier.regimeDecision s = MarketRegime.Oscillatory) :=
  regime_partition 1 [zeroPhysics] (by simp)

/-- C10: for any field name other than entropy, pressure and nrg the
z-score helper returns 0, and the result does not depend on the
window. -/
theorem zscore_unknown_field (qsqrt : ℚ → ℚ) (current_val : ℚ)
    (history history2 : List PhysicsState) (field : String)
    (h1 : field ≠ "entropy") (h2 : field ≠ "pressure") (h3 : field ≠ "nrg") :
    RegimeClassifier.calculate_z_score qsqrt current_val history field = 0
    ∧ RegimeClassifier.calculate_z_score qsqrt current_val history field
        = RegimeClassifier.calculate_z_score qsqrt current_val history2 field := by
  unfold RegimeClassifier.calculate_z_score
  refine ⟨?_, ?_⟩ <;> simp only [if_neg h1, if_neg h2, if_neg h3]

/-- C7, counterexample: the transform reads the wall clock for the
timestamp field, so two applications to the byte-identical empty-book
snapshot made at clock instants 0 and 1 yield different PhysicsState
values; output equality including the timestamp fails. -/
theorem physics_determinism_cex :
    Physicist.process_snapshot_researcher (fun q => q) (fun q => q) 0
        { bids := [], asks := [] } 0
      ≠ Physicist.process_snapshot_researcher (fun q => q) (fun q => q) 0
        { bids := [], asks := [] } 1 := by
  intro h
  have h2 : (0 : ℤ) = 1 := congrArg PhysicsState.timestamp h
  exact absurd h2 (by decide)

/-- C7, amended: the transform is deterministic in the pair of the
snapshot and the clock reading; every field except the timestamp is a
function of the snapshot alone, and the timestamp is exactly the clock
reading of the call, in both the researcher and the trader variant. -/
theorem physics_determinism_amended (qln qln1p : ℚ → ℚ) (qpi : ℚ)
    (s : L2Snapshot) (now now2 : ℤ) :
    ((Physicist.process_snapshot_researcher qln qln1p qpi s now).price
        = (Physicist.process_snapshot_researcher qln qln1p qpi s now2).price
      ∧ (Physicist.process_snapshot_researcher qln qln1p qpi s now).spread
        = (Physicist.process_snapshot_researcher qln qln1p qpi s now2).spread
      ∧ (Physicist.process_snapshot_researcher qln qln1p qpi s now).entropy
        = (Physicist.process_snapshot_researcher qln qln1p qpi s now2).entropy
      ∧ (Physicist.process_snapshot_researcher qln qln1p qpi s now).pressure
        = (Physicist.process_snapshot_researcher qln qln1p qpi s now2).pressure
      ∧ (Physicist.process_snapshot_researcher qln qln1p qpi s now).temperature
        = (Physicist.process_snapshot_researcher qln qln1p qpi s now2).temperature
      ∧ (Physicist.process_snapshot_researcher qln qln1p qpi s now).nrg
        = (Physicist.process_snapshot_researcher qln qln1p qpi s now2).nrg
      ∧ (Physicist.process_snapshot_researcher qln qln1p qpi s now).total_volume
        = (Physicist.process_snapshot_researcher qln qln1p qpi s now2).total_volume
      ∧ (Physicist.process_snapshot_researcher qln qln1p qpi s now).bid_volume
        = (Physicist.process_snapshot_researcher qln qln1p qpi s now2).bid_volume
      ∧ (Physicist.process_snapshot_researcher qln qln1p qpi s now).ask_volume
        = (Physicist.process_snapshot_researcher qln qln1p qpi s now2).ask_volume
      ∧ (Physicist.process_snapshot_researcher qln qln1p qpi s now).timestamp = now)
    ∧ ((Physicist.process_snapshot_trader qln s now).price
        = (Physicist.process_snapshot_trader qln s now2).price
      ∧ (Physicist.process_snapshot_trader qln s now).spread
        = (Physicist.process_snapshot_trader qln s now2).spread
      ∧ (Physicist.process_snapshot_trader qln s now).entropy
        = (Physicist.process_snapshot_trader qln s now2).entropy
      ∧ (Physicist.process_snapshot_trader qln s now).pressure
        = (Physicist.process_snapshot_trader qln s now2).pressure
      ∧ (Physicist.process_snapshot_trader qln s now).temperature
        = (Physicist.process_snapshot_trader qln s now2).temperature
      ∧ (Physicist.process_snapshot_trader qln s now).nrg
        = (Physicist.process_snapshot_trader qln s now2).nrg
      ∧ (Physicist.process_snapshot_trader qln s now).total_volume
        = (Physicist.process_snapshot_trader qln s now2).total_volume
      ∧ (Physicist.process_snapshot_trader qln s now).bid_volume
        = (Physicist.process_snapshot_trader qln s now2).bid_volume
      ∧ (Physicist.process_snapshot_trader qln s now).ask_volume
        = (Physicist.process_snapshot_trader qln s now2).ask_volume
      ∧ (Physicist.process_snapshot_trader qln s now).timestamp = now) :=
  ⟨⟨rfl, rfl, rfl, rfl, rfl, rfl, rfl, rfl, rfl, rfl⟩,
   ⟨rfl, rfl, rfl, rfl, rfl, rfl, rfl, rfl, rfl, rfl⟩⟩

theorem Engine.updateVRecord_preserves_returnsNone (now : ℤ) (p : ℚ)
    (r : Engine.ValidationRecord) (hp : r.price_at_t0 ≤ 0)
    (h : Engine.returnsNone r) :
    Engine.returnsNone (Engine.updateVRecord now p r) := by
  obtain ⟨h5, h10, h30, h60⟩ := h
  have hlt : ¬ (0 < r.price_at_t0) := not_lt.mpr hp
  unfold Engine.updateVRecord
  dsimp only
  repeat' split
  all_goals simp_all [Engine.returnsNone, Engine.ValidationRecord.calculate_return]

theorem Engine.applyUpdates_returnsNone (ops : List (ℤ × ℚ))
    (r : Engine.ValidationRecord) (hp : r.price_at_t0 ≤ 0)
    (h0 : Engine.returnsNone r) :
    Engine.returnsNone (Engine.applyUpdates ops r) := by
  induction ops generalizing r with
  | nil => exact h0
  | cons op rest ih =>
      exact ih (Engine.updateVRecord op.1 op.2 r)
        (by rw [Engine.updateVRecord_price_at_t0]; exact hp)
        (Engine.updateVRecord_preserves_returnsNone op.1 op.2 r hp h0)

/-- C5, counterexample: a validation record with entry price 0,
updated at time 60 with price 1: the research engine sets is_complete
to true while the largest-horizon return return_60s is still none. -/
theorem completion_flag_cex :
    (Engine.updateVRecord 60 1 (Engine.freshVRecord 0 0)).is_complete = true
    ∧ (Engine.updateVRecord 60 1 (Engine.freshVRecord 0 0)).return_60s = none := by
  constructor
  · rw [Engine.updateVRecord_complete]
    norm_num [Engine.freshVRecord]
  · rw [Engine.updateVRecord_ret60]
    norm_num [Engine.freshVRecord, Engine.ValidationRecord.calculate_return]

/-- C5, amended: in the researcher Chronos, registration and each
price update preserve the property that is_complete holds exactly when
the 89 s return has been assigned a value; in the research engine,
reaching the 60 s horizon sets is_complete even though the stored
return_60s may still be none (non-positive prices). -/
theorem completion_flag_amended (sym : String) (ph : PhysicsState)
    (rg : RegimeState) (t0 now : ℕ) (price : ℚ) (r : Chronos.MBCTFullRecord)
    (hr : r.is_complete = r.ret_89s.isSome)
    (vnow : ℤ) (vprice : ℚ) (v : Engine.ValidationRecord)
    (hv60 : 60 ≤ vnow - v.timestamp) (hv : v.return_60s = none) :
    (Chronos.newRecord sym ph rg t0).is_complete
      = ((Chronos.newRecord sym ph rg t0).ret_89s).isSome
    ∧ (Chronos.updateRecord now price r).is_complete
      = ((Chronos.updateRecord now price r).ret_89s).isSome
    ∧ (Engine.updateVRecord vnow vprice v).is_complete = true := by
  refine ⟨rfl, ?_, ?_⟩
  · rw [Chronos.updateRecord_complete, Chronos.updateRecord_ret89]
    by_cases hc : r.ret_89s = none ∧ 89 ≤ now - r.t0
    · rw [if_pos hc, if_pos hc]
      rfl
    · rw [if_neg hc, if_neg hc]
      exact hr
  · rw [Engine.updateVRecord_complete, if_pos ⟨hv60, hv⟩]

/-- C5, witness for the amended theorem: a fresh researcher record
updated at time 89, and an engine record with entry price 100 and
unset 60 s return updated at time 60. -/
theorem completion_flag_amended_witness :
    (Chronos.newRecord "AAA" zeroPhysics defaultRegime 0).is_complete
      = ((Chronos.newRecord "AAA" zeroPhysics defaultRegime 0).ret_89s).isSome
    ∧ (Chronos.updateRecord 89 1 Chronos.zeroEntryRecord).is_complete
      = ((Chronos.updateRecord 89 1 Chronos.zeroEntryRecord).ret_89s).isSome
    ∧ (Engine.updateVRecord 60 1 (Engine.freshVRecord 0 100)).is_complete = true :=
  completion_flag_amended "AAA" zeroPhysics defaultRegime 0 89 1
    Chronos.zeroEntryRecord rfl 60 1 (Engine.freshVRecord 0 100)
    (by norm_num [Engine.freshVRecord]) rfl

/-- C6, counterexample: a researcher Chronos observation with entry
price 0 receives the sentinel value some 0 at every horizon on the
first price update after 89 s, rather than keeping all returns none. -/
theorem inactive_observation_cex :
    (Chronos.updateRecord 89 1 Chronos.zeroEntryRecord).ret_3s = some 0
    ∧ (Chronos.updateRecord 89 1 Chronos.zeroEntryRecord).ret_89s = some 0 := by
  constructor
  · rw [Chronos.updateRecord_ret3]
    norm_num [Chronos.zeroEntryRecord, Chronos.newRecord, zeroPhysics,
      Chronos.calculate_return]
  · rw [Chronos.updateRecord_ret89]
    norm_num [Chronos.zeroEntryRecord, Chronos.newRecord, zeroPhysics,
      Chronos.calculate_return]

/-- C6, amended: in the research engine a record queued with
non-positive entry price keeps all four returns none under every
sequence of price updates; in the researcher and trader Chronos a
non-positive entry price produces the sentinel return 0, stored as
some 0 at each elapsed horizon. -/
theorem inactive_observation_amended (r : Engine.ValidationRecord)
    (hp : r.price_at_t0 ≤ 0) (h0 : Engine.returnsNone r) (ops : List (ℤ × ℚ))
    (entry p : ℚ) (he : entry ≤ 0)
    (cnow : ℕ) (cprice : ℚ) (c : Chronos.MBCTFullRecord)
    (hcp : c.physics.price ≤ 0) (hc3 : c.ret_3s = none)
    (hel : 3 ≤ cnow - c.t0) :
    Engine.returnsNone (Engine.applyUpdates ops r)
    ∧ Chronos.calculate_return entry p = 0
    ∧ Trader.calc_ret entry p = 0
    ∧ (Chronos.updateRecord cnow cprice c).ret_3s = some 0 := by
  refine ⟨Engine.applyUpdates_returnsNone ops r hp h0, ?_, ?_, ?_⟩
  · unfold Chronos.calculate_return
    rw [if_pos he]
  · unfold Trader.calc_ret
    rw [if_pos he]
  · rw [Chronos.updateRecord_ret3, if_pos ⟨hc3, hel⟩]
    unfold Chronos.calculate_return
    rw [if_pos hcp]

/-- C6, witness for the amended theorem: an engine record with entry
price 0 under two price updates, and a Chronos record with entry price
0 updated at time 89. -/
theorem inactive_observation_amended_witness :
    Engine.returnsNone (Engine.applyUpdates [(5, 1), (60, 2)] (Engine.freshVRecord 0 0))
    ∧ Chronos.calculate_return 0 5 = 0
    ∧ Trader.calc_ret 0 5 = 0
    ∧ (Chronos.updateRecord 89 1 Chronos.zeroEntryRecord).ret_3s = some 0 :=
  inactive_observation_amended (Engine.freshVRecord 0 0)
    (by norm_num [Engine.freshVRecord]) ⟨rfl, rfl, rfl, rfl⟩ [(5, 1), (60, 2)]
    0 5 (by norm_num) 89 1 Chronos.zeroEntryRecord
    (by norm_num [Chronos.zeroEntryRecord, Chronos.newRecord, zeroPhysics])
    rfl (by norm_num [Chronos.zeroEntryRecord, Chronos.newRecord])

/-- C9, counterexample: with a constant feature group (σ = 0, so the
Pearson denominator vanishes) the EWMA is not left unchanged: the
stored correlation 1 becomes 9/10, while the sample counter does grow
by the group size 2. -/
theorem correlation_sigma_zero_cex :
    (Engine.updateStats5s (fun q => q) Engine.statsOne [1, 1] [0, 1]).nrg_5s_correlation
        = 9 / 10
    ∧ Engine.statsOne.nrg_5s_correlation = 1
    ∧ (9 / 10 : ℚ) ≠ 1
    ∧ (Engine.updateStats5s (fun q => q) Engine.statsOne [1, 1] [0, 1]).nrg_5s_samples
        = 2 := by
  refine ⟨?_, rfl, by norm_num, ?_⟩ <;>
    · norm_num [Engine.updateStats5s, Engine.calculate_pearson_correlation,
        Engine.statsOne]
      rfl

/-- C9, amended: when the radicand of the Pearson denominator
vanishes because the feature group is degenerate, the correlation
helper returns 0 with the group size, and the EWMA update is still
applied with that 0 (shrinking the stored value by the factor
1 - alpha) while the sample counter grows by the group size. -/
theorem correlation_sigma_zero_amended (qsqrt : ℚ → ℚ) (hq : qsqrt 0 = 0)
    (x y : List ℚ) (stats : Engine.CorrelationStats)
    (hlen : x.length = y.length) (h2 : 2 ≤ x.length)
    (hsig : (x.length : ℚ) * (x.map (fun v => v * v)).sum - x.sum * x.sum = 0) :
    Engine.calculate_pearson_correlation qsqrt x y = (0, x.length)
    ∧ (Engine.updateStats5s qsqrt stats x y).nrg_5s_correlation
        = (1 - 1 / 10) * stats.nrg_5s_correlation
    ∧ (Engine.updateStats5s qsqrt stats x y).nrg_5s_samples
        = stats.nrg_5s_samples + x.length := by
  have hx : x ≠ [] := by
    intro hnil
    rw [hnil] at h2
    simp at h2
  have hpear : Engine.calculate_pearson_correlation qsqrt x y = (0, x.length) := by
    unfold Engine.calculate_pearson_correlation
    rw [if_neg (by push_neg; exact ⟨hlen, by omega⟩)]
    dsimp only
    rw [hsig, zero_mul, hq]
    rw [if_neg (by norm_num)]
  refine ⟨hpear, ?_, ?_⟩
  · unfold Engine.updateStats5s
    rw [if_neg hx]
    dsimp only
    rw [hpear]
    norm_num
  · unfold Engine.updateStats5s
    rw [if_neg hx]
    dsimp only
    rw [hpear]

/-- C9, witness for the amended theorem: feature group [1, 1] (zero
variance), return group [0, 1], stored EWMA 1. -/
theorem correlation_sigma_zero_amended_witness :
    Engine.calculate_pearson_correlation (fun q => q) [1, 1] [0, 1]
        = (0, [1, 1].length)
    ∧ (Engine.updateStats5s (fun q => q) Engine.statsOne [1, 1] [0, 1]).nrg_5s_correlation
        = (1 - 1 / 10) * Engine.statsOne.nrg_5s_correlation
    ∧ (Engine.updateStats5s (fun q => q) Engine.statsOne [1, 1] [0, 1]).nrg_5s_samples
        = Engine.statsOne.nrg_5s_samples + [1, 1].length :=
  correlation_sigma_zero_amended (fun q => q) rfl [1, 1] [0, 1] Engine.statsOne
    rfl (by norm_num) (by norm_num)

theorem Chronos.registerN_length (n : ℕ) (sym : String) (ph : PhysicsState)
    (rg : RegimeState) (now : ℕ) (q : List Chronos.MBCTFullRecord) :
    (Chronos.registerN n sym ph rg now q).length = q.length + n := by
  induction n generalizing q with
  | zero => rfl
  | succ m ih =>
      show (Chronos.registerN m sym ph rg now
        (Chronos.register_observation sym ph rg now q)).length = q.length + (m + 1)
      rw [ih]
      simp [Chronos.register_observation]
      omega

theorem Engine.queue_validation_record_at_cap (q : List Engine.ValidationRecord)
    (r : Engine.ValidationRecord) (h : q.length = 1000) :
    Engine.queue_validation_record q r = q.tail ++ [r] := by
  unfold Engine.queue_validation_record
  dsimp only
  rw [if_pos (by simp [List.length_append, h])]
  cases q with
  | nil => simp at h
  | cons a t => simp

theorem Engine.fullQueue_length : Engine.fullQueue.length = 1000 := by
  rw [Engine.fullQueue, List.length_cons, List.length_replicate]

theorem Engine.fullQueue_tail :
    Engine.fullQueue.tail = List.replicate 999 (Engine.freshVRecord 1 100) := rfl

theorem Engine.engineStep_enqueue_fst (q : List Engine.ValidationRecord)
    (r : Engine.ValidationRecord) :
    (Engine.engineStep q (Engine.EngineOp.enqueue r)).1
      = Engine.queue_validation_record q r := rfl

theorem Engine.engineStep_enqueue_snd (q : List Engine.ValidationRecord)
    (r : Engine.ValidationRecord) :
    (Engine.engineStep q (Engine.EngineOp.enqueue r)).2 = [] := rfl

/-- C2, counterexample: 1001 register_observation calls with no
intervening retirement leave 1001 pending records in the researcher
Chronos, which performs no capacity check: the pending queue exceeds
the nominal cap of 1000. -/
theorem cap_invariant_cex :
    1000 < (Chronos.registerN 1001 "AAA" zeroPhysics defaultRegime 0 []).length := by
  rw [Chronos.registerN_length]
  norm_num

theorem Engine.engineStep_length_le (q : List Engine.ValidationRecord)
    (op : Engine.EngineOp) (h : q.length ≤ 1000) :
    ((Engine.engineStep q op).1).length ≤ 1000 := by
  cases op with
  | enqueue r =>
      rw [Engine.engineStep_enqueue_fst]
      unfold Engine.queue_validation_record
      dsimp only
      split
      · simp only [List.length_tail, List.length_append, List.length_cons,
          List.length_nil]
        omega
      · next hn =>
          simp only [not_lt, List.length_append, List.length_cons,
            List.length_nil] at hn
          simp only [List.length_append, List.length_cons, List.length_nil]
          omega
  | onPrice now price =>
      show ((Engine.update_pending_records now price q).1).length ≤ 1000
      unfold Engine.update_pending_records
      dsimp only
      rw [List.length_map]
      exact le_trans (List.length_filter_le _ _) h

theorem Engine.foldl_length_le (ops : List Engine.EngineOp)
    (q : List Engine.ValidationRecord) (h : q.length ≤ 1000) :
    (ops.foldl (fun acc op => (Engine.engineStep acc op).1) q).length ≤ 1000 := by
  induction ops generalizing q with
  | nil => exact h
  | cons op rest ih => exact ih _ (Engine.engineStep_length_le q op h)

/-- C2, amended: the cap holds for the validation queue of the research
engine: starting empty, no sequence of enqueues and price updates ever
leaves more than 1000 records, an enqueue on a full queue evicts
exactly the head, and a price update never grows the queue; the
researcher Chronos pending queue is not capped. -/
theorem cap_invariant_amended (records : List Engine.ValidationRecord)
    (r : Engine.ValidationRecord) (hlen : records.length ≤ 1000)
    (now : ℤ) (price : ℚ) (ops : List Engine.EngineOp) :
    (Engine.queue_validation_record records r).length ≤ 1000
    ∧ (records.length = 1000 →
        Engine.queue_validation_record records r = records.tail ++ [r])
    ∧ (Engine.update_pending_records now price records).1.length
        ≤ records.length
    ∧ (Engine.runQueue ops).length ≤ 1000 := by
  refine ⟨Engine.engineStep_length_le records (Engine.EngineOp.enqueue r) hlen,
    fun h => Engine.queue_validation_record_at_cap records r h, ?_,
    Engine.foldl_length_le ops [] (by simp)⟩
  · unfold Engine.update_pending_records
    dsimp only
    rw [List.length_map]
    exact List.length_filter_le _ _

/-- C2, witness for the amended theorem at a full queue of 1000
records. -/
theorem cap_invariant_amended_witness :
    (Engine.queue_validation_record Engine.fullQueue (Engine.freshVRecord 2 100)).length ≤ 1000
    ∧ Engine.queue_validation_record Engine.fullQueue (Engine.freshVRecord 2 100)
        = Engine.fullQueue.tail ++ [Engine.freshVRecord 2 100]
    ∧ (Engine.update_pending_records 0 0 Engine.fullQueue).1.length
        ≤ Engine.fullQueue.length
    ∧ (Engine.runQueue [Engine.EngineOp.enqueue (Engine.freshVRecord 2 100)]).length ≤ 1000 :=
  ⟨(cap_invariant_amended Engine.fullQueue (Engine.freshVRecord 2 100)
      (le_of_eq Engine.fullQueue_length) 0 0
      [Engine.EngineOp.enqueue (Engine.freshVRecord 2 100)]).1,
   (cap_invariant_amended Engine.fullQueue (Engine.freshVRecord 2 100)
      (le_of_eq Engine.fullQueue_length) 0 0
      [Engine.EngineOp.enqueue (Engine.freshVRecord 2 100)]).2.1 Engine.fullQueue_length,
   (cap_invariant_amended Engine.fullQueue (Engine.freshVRecord 2 100)
      (le_of_eq Engine.fullQueue_length) 0 0
      [Engine.EngineOp.enqueue (Engine.freshVRecord 2 100)]).2.2.1,
   (cap_invariant_amended Engine.fullQueue (Engine.freshVRecord 2 100)
      (le_of_eq Engine.fullQueue_length) 0 0
      [Engine.EngineOp.enqueue (Engine.freshVRecord 2 100)]).2.2.2⟩

/-- C3, counterexample: enqueueing onto a full queue evicts the head
record (registered at time 0) without flushing anything to the sink:
the sink output of the step is empty and the evicted record is gone from
the queue — it is silently discarded, not emitted as a partial
record. -/
theorem cap_eviction_emission_cex :
    (Engine.engineStep Engine.fullQueue
        (Engine.EngineOp.enqueue (Engine.freshVRecord 2 100))).2 = []
    ∧ Engine.freshVRecord 0 100 ∈ Engine.fullQueue
    ∧ Engine.freshVRecord 0 100 ∉ (Engine.engineStep Engine.fullQueue
        (Engine.EngineOp.enqueue (Engine.freshVRecord 2 100))).1 := by
  refine ⟨Engine.engineStep_enqueue_snd _ _, List.mem_cons_self _ _, ?_⟩
  rw [Engine.engineStep_enqueue_fst,
    Engine.queue_validation_record_at_cap _ _ Engine.fullQueue_length,
    Engine.fullQueue_tail]
  intro hmem
  rcases List.mem_append.mp hmem with h | h
  · have h2 := List.eq_of_mem_replicate h
    have h3 : (0 : ℤ) = 1 := congrArg Engine.ValidationRecord.timestamp h2
    exact absurd h3 (by decide)
  · have h2 : Engine.freshVRecord 0 100 = Engine.freshVRecord 2 100 := by simpa using h
    have h3 : (0 : ℤ) = 2 := congrArg Engine.ValidationRecord.timestamp h2
    exact absurd h3 (by decide)

/-- C3, amended: an enqueue never writes to the sink; when the cap is
breached the head record is evicted and dropped, so only records that
complete their largest horizon inside a price update are ever
flushed. -/
theorem cap_eviction_silent_amended (q : List Engine.ValidationRecord)
    (r : Engine.ValidationRecord) (h1000 : q.length = 1000) :
    (Engine.engineStep q (Engine.EngineOp.enqueue r)).2 = []
    ∧ (Engine.engineStep q (Engine.EngineOp.enqueue r)).1 = q.tail ++ [r] :=
  ⟨rfl, Engine.queue_validation_record_at_cap q r h1000⟩

/-- C3, witness for the amended theorem at a full queue of 1000
records. -/
theorem cap_eviction_silent_amended_witness :
    (Engine.engineStep Engine.fullQueue
        (Engine.EngineOp.enqueue (Engine.freshVRecord 2 100))).2 = []
    ∧ (Engine.engineStep Engine.fullQueue
        (Engine.EngineOp.enqueue (Engine.freshVRecord 2 100))).1
        = Engine.fullQueue.tail ++ [Engine.freshVRecord 2 100] :=
  cap_eviction_silent_amended Engine.fullQueue (Engine.freshVRecord 2 100)
    Engine.fullQueue_length

/-- C4, counterexample: two engine records registered at times 0 and 1
both retire on the price update at time 100, and they are flushed in
descending queue order: the first flushed record carries timestamp 1
and the second timestamp 0, so retired observations are not emitted in
ascending t0 order. -/
theorem retirement_order_cex :
    (Engine.update_pending_records 100 1
        [Engine.freshVRecord 0 100, Engine.freshVRecord 1 100]).2
      = [Engine.updateVRecord 100 1 (Engine.freshVRecord 1 100),
         Engine.updateVRecord 100 1 (Engine.freshVRecord 0 100)]
    ∧ (Engine.updateVRecord 100 1 (Engine.freshVRecord 1 100)).timestamp = 1
    ∧ (Engine.updateVRecord 100 1 (Engine.freshVRecord 0 100)).timestamp = 0 := by
  refine ⟨?_, ?_, ?_⟩
  · unfold Engine.update_pending_records
    dsimp only
    norm_num [Engine.retires, Engine.freshVRecord, List.filter]
  · rw [Engine.updateVRecord_timestamp]
    rfl
  · rw [Engine.updateVRecord_timestamp]
    rfl

/-- C4, amended: the researcher Chronos emits the records completing
in one call in ascending t0 order, and an older pending record always
completes in the same call as any younger one (so it is emitted no
later); the research engine flushes the records retiring in one call
in descending queue order. -/
theorem retirement_order_amended (now : ℕ) (price : ℚ)
    (records : List Chronos.MBCTFullRecord)
    (hsort : records.Pairwise (fun a b => a.t0 ≤ b.t0))
    (hinv : ∀ r ∈ records, r.is_complete = false ∧ r.ret_89s = none)
    (vnow : ℤ) (vprice : ℚ) (vrecords : List Engine.ValidationRecord)
    (hvsort : vrecords.Pairwise (fun a b => a.timestamp ≤ b.timestamp)) :
    (Chronos.update_and_flush now price records).2.Pairwise (fun a b => a.t0 ≤ b.t0)
    ∧ (∀ a ∈ records, ∀ b ∈ records, a.t0 ≤ b.t0 →
        (Chronos.updateRecord now price b).is_complete = true →
        (Chronos.updateRecord now price a).is_complete = true)
    ∧ (∀ a ∈ records, (Chronos.updateRecord now price a).is_complete = true →
        Chronos.updateRecord now price a ∈ (Chronos.update_and_flush now price records).2)
    ∧ (Engine.update_pending_records vnow vprice vrecords).2.Pairwise
        (fun a b => b.timestamp ≤ a.timestamp) := by
  refine ⟨?_, ?_, ?_, ?_⟩
  · unfold Chronos.update_and_flush
    dsimp only
    apply List.Pairwise.filter
    rw [List.pairwise_map]
    exact hsort.imp (fun hab => by
      rw [Chronos.updateRecord_t0, Chronos.updateRecord_t0]; exact hab)
  · intro a ha b hb hab hbc
    obtain ⟨_, ha89⟩ := hinv a ha
    obtain ⟨hbc0, _⟩ := hinv b hb
    rw [Chronos.updateRecord_complete] at hbc ⊢
    by_cases hc : b.ret_89s = none ∧ 89 ≤ now - b.t0
    · rw [if_pos ⟨ha89, by omega⟩]
    · rw [if_neg hc, hbc0] at hbc
      exact absurd hbc (by simp)
  · intro a ha hcomp
    unfold Chronos.update_and_flush
    dsimp only
    rw [List.mem_filter]
    exact ⟨List.mem_map_of_mem _ ha, by simp [hcomp]⟩
  · unfold Engine.update_pending_records
    dsimp only
    rw [List.pairwise_reverse, List.pairwise_map]
    exact (hvsort.filter _).imp (fun hab => by
      rw [Engine.updateVRecord_timestamp, Engine.updateVRecord_timestamp]; exact hab)

/-- C4, witness for the amended theorem: two Chronos records
registered at times 0 and 1 and two engine records registered at times
0 and 1, all updated at time 100. -/
theorem retirement_order_amended_witness :
    (Chronos.update_and_flush 100 1 [Chronos.recA, Chronos.recB]).2.Pairwise
        (fun a b => a.t0 ≤ b.t0)
    ∧ (Engine.update_pending_records 100 1
        [Engine.freshVRecord 0 100, Engine.freshVRecord 1 100]).2.Pairwise
        (fun a b => b.timestamp ≤ a.timestamp) :=
  ⟨(retirement_order_amended 100 1 [Chronos.recA, Chronos.recB]
      (by simp [Chronos.recA, Chronos.recB, Chronos.newRecord])
      (by simp [Chronos.recA, Chronos.recB, Chronos.newRecord])
      100 1 [Engine.freshVRecord 0 100, Engine.freshVRecord 1 100]
      (by simp [Engine.freshVRecord])).1,
   (retirement_order_amended 100 1 [Chronos.recA, Chronos.recB]
      (by simp [Chronos.recA, Chronos.recB, Chronos.newRecord])
      (by simp [Chronos.recA, Chronos.recB, Chronos.newRecord])
      100 1 [Engine.freshVRecord 0 100, Engine.freshVRecord 1 100]
      (by simp [Engine.freshVRecord])).2.2.2⟩

/-- C10, witness at the unknown field name volume. -/
theorem zscore_unknown_field_witness :
    RegimeClassifier.calculate_z_score (fun q => q) 1 [zeroPhysics] "volume" = 0
    ∧ RegimeClassifier.calculate_z_score (fun q => q) 1 [zeroPhysics] "volume"
        = RegimeClassifier.calculate_z_score (fun q => q) 1 [] "volume" :=
  zscore_unknown_field (fun q => q) 1 [zeroPhysics] [] "volume"
    (by decide) (by decide) (by decide)

end MBCT
